import Mathlib

/-!
Shallow embedding of the `SplitPdfHook` class from
`src/sdk/models/operations/partition.ts` (the PDF-splitting request hook of
the unstructured-js client).

Modelling conventions:
* JS `Response` bodies are modelled by their parsed JSON value (`Json`): the
  hook only ever produces a body by `JSON.stringify`-ing a JSON value and only
  ever consumes a body through `res.json()`, so the string serialization layer
  is dropped and bodies are compared as JSON values.
* The browser `Headers` object is a list of (lower-cased name, value) pairs;
  `Headers.delete` removes every pair with the given name.
* `FormData` is an ordered list of entries; `get` returns the first entry with
  the key, `delete` removes all entries with the key, `append` adds at the end.
* The HTTP client is a function from requests to `Except`: `.error` models a
  thrown transport error, `.ok` a delivered response of any status.
* The pdf-lib collaborator is opaque: `PdfLib.load` maps document bytes either
  to a parse failure or to the list of single-page blobs; the page-extraction
  loop of `#getPdfPages` is kept and iterates over those pages by index.
* The two private record fields `#partitionResponses` / `#partitionRequests`
  are modelled as maps `String → Option _`; the stored join promise carries no
  data beyond its presence, and awaiting it resolves the slot array that the
  (sequentially modelled) dispatched tasks produced.
* `console.warn` / `console.error` output is collected in a log list.
-/

/-- Parsed JSON values (body contents of requests/responses). -/
inductive Json where
  | null : Json
  | bool (b : Bool) : Json
  | num (n : Int) : Json
  | str (s : String) : Json
  | arr (elems : List Json) : Json
  | obj (fields : List (String × Json)) : Json

/-- Raw document bytes (the opaque blob contents handed to pdf-lib). -/
abbrev Bytes := List Nat

/-- A multipart form entry value: either a plain string or a file part
(a name plus blob contents), as stored in a JS `FormData`. -/
inductive FormValue where
  | str (s : String) : FormValue
  | file (name : String) (content : Bytes) : FormValue

/-- A JS `FormData`: an ordered multiset of key/value entries. -/
abbrev FormData := List (String × FormValue)

/-- `FormData.get`: first entry with the key, or `none`. -/
def FormData.get (fd : FormData) (k : String) : Option FormValue :=
  (fd.find? (fun p => p.1 = k)).map (fun p => p.2)

/-- `FormData.delete`: drop every entry with the key. -/
def FormData.del (fd : FormData) (k : String) : FormData :=
  fd.filter (fun p => p.1 ≠ k)

/-- `FormData.append`: add an entry at the end. -/
def FormData.append (fd : FormData) (k : String) (v : FormValue) : FormData :=
  fd ++ [(k, v)]

/-- HTTP header list (names already normalized to lower case, as the JS
`Headers` class does). -/
abbrev HHeaders := List (String × String)

/-- `Headers.delete name`: remove every header with that name. -/
def HHeaders.del (hs : HHeaders) (k : String) : HHeaders :=
  hs.filter (fun p => p.1 ≠ k)

/-- A JS `Response` as the hook observes it: status, status text, headers and
the parsed JSON body. -/
structure HResponse where
  status : Nat
  statusText : String
  headers : HHeaders
  body : Json

/-- A JS `Request` as the hook observes it: headers and the multipart form
body (method/URL/etc. are copied verbatim by `new Request(request.clone(), …)`
and never inspected, so they are omitted). -/
structure HRequest where
  headers : HHeaders
  form : FormData

/-- The HTTP client collaborator: `.error` is a thrown transport error,
`.ok` a delivered response. -/
abbrev Transport := HRequest → Except String HResponse

/-- The pdf-lib collaborator, opaque to the hook: loading either fails
(malformed document) or yields the document as its list of page blobs. -/
structure PdfLib where
  load : Bytes → Except String (List Bytes)

/-- `#pdfPageToBlob`: extract page `pageIndex` of a loaded document as a
standalone single-page blob. -/
def pdfPageToBlob (pdfPages : List Bytes) (pageIndex : Nat) : Bytes :=
  pdfPages.getD pageIndex []

/-- `#getPdfPages`: load the file, then collect one blob per page index, in
page order; a load failure propagates. -/
def getPdfPages (lib : PdfLib) (file : Bytes) : Except String (List Bytes) :=
  match lib.load file with
  | .error e => .error e
  | .ok pdf => .ok ((List.range pdf.length).map (pdfPageToBlob pdf))

/-- ASCII lower-casing of a string (character-wise). -/
def strLower (s : String) : String :=
  ⟨s.data.map Char.toLower⟩

/-- Modelled from the spec: `stringToBoolean` is imported from `./utils`,
which is not among the sources. The spec says the accepted truthy strings are
"true"/"1"/"yes", case-insensitive; everything else is false. -/
def stringToBoolean (s : String) : Bool :=
  strLower s = "true" || strLower s = "1" || strLower s = "yes"

/-- JS `String.prototype.endsWith` with a string argument. -/
def strEndsWith (s suffix : String) : Bool :=
  suffix.data.isSuffixOf s.data

/-- `PARTITION_FORM_FILES_KEY`. -/
def PARTITION_FORM_FILES_KEY : String := "files"

/-- `PARTITION_FORM_SPLIT_PDF_PAGE_KEY`. -/
def PARTITION_FORM_SPLIT_PDF_PAGE_KEY : String := "split_pdf_page"

/-- `MAX_NUMBER_OF_PARALLEL_REQUESTS`. -/
def MAX_NUMBER_OF_PARALLEL_REQUESTS : Int := 15

/-- Initial value of the static field `SplitPdfHook.parallelLimit`
(the value in effect when the user never assigns the field). -/
def defaultParallelLimit : Int := 5

/-- `formData.get(PARTITION_FORM_SPLIT_PDF_PAGE_KEY) as string ?? "false"`:
the split-flag entry read as a string, defaulting to "false" when absent.
(A file entry under this key would be an unchecked cast in the JS code; its
string coercion is modelled as the JS object stringification.) -/
def formGetString (fd : FormData) (k : String) : String :=
  match fd.get k with
  | some (.str s) => s
  | some (.file _ _) => "[object File]"
  | none => "false"

/-- `formData.get(PARTITION_FORM_FILES_KEY) as File | null`: the file entry,
when it is a file part. -/
def fileOfForm (fd : FormData) : Option (String × Bytes) :=
  match fd.get PARTITION_FORM_FILES_KEY with
  | some (.file n c) => some (n, c)
  | _ => none

/-- Replace the first occurrence of `pat` in the character list by `rep`
(identity when `pat` never occurs). -/
def replaceFirstAux (pat rep : List Char) : List Char → List Char
  | [] => []
  | c :: rest =>
      if pat.isPrefixOf (c :: rest) then rep ++ (c :: rest).drop pat.length
      else c :: replaceFirstAux pat rep rest

/-- JS `String.prototype.replace` with a string pattern: replace only the
FIRST occurrence of `pat` by `rep`. -/
def replaceFirst (s pat rep : String) : String :=
  ⟨replaceFirstAux pat.data rep.data s.data⟩

/-- `#prepareRequestHeaders`: the request headers minus "content-type". -/
def prepareRequestHeaders (request : HRequest) : HHeaders :=
  HHeaders.del request.headers "content-type"

/-- `#prepareRequestBody`: the request form with the split-flag and file
entries removed and the split flag re-appended as "false". -/
def prepareRequestBody (request : HRequest) : FormData :=
  FormData.append
    ((request.form.del PARTITION_FORM_SPLIT_PDF_PAGE_KEY).del PARTITION_FORM_FILES_KEY)
    PARTITION_FORM_SPLIT_PDF_PAGE_KEY (.str "false")

/-- One derived page request (body of the loop in `beforeRequest`): prepared
headers, prepared body plus the single page blob appended under the files key
with name `fileName-(i+1).pdf`. -/
def pageRequest (request : HRequest) (fileName : String) (i : Nat) (page : Bytes) :
    HRequest :=
  { headers := prepareRequestHeaders request,
    form := FormData.append (prepareRequestBody request) PARTITION_FORM_FILES_KEY
      (.file (fileName ++ "-" ++ toString (i + 1) ++ ".pdf") page) }

/-- The full list of derived page requests built by the loop, one per page in
source page order. -/
def buildPageRequests (request : HRequest) (fileName : String) (pages : List Bytes) :
    List HRequest :=
  pages.enum.map (fun p => pageRequest request fileName p.1 p.2)

/-- The warning emitted when the configured `parallelLimit` exceeds the
maximum. -/
def parallelLimitWarning (configured : Int) : List String :=
  if configured > MAX_NUMBER_OF_PARALLEL_REQUESTS then
    ["parallelLimit is above the maximum number of parallel requests. Using the maximum value instead."]
  else []

/-- The concurrency bound actually passed to `async.parallelLimit`:
the configured value, reduced to the maximum when it exceeds it. -/
def effectiveParallelLimit (configured : Int) : Int :=
  if configured > MAX_NUMBER_OF_PARALLEL_REQUESTS then
    MAX_NUMBER_OF_PARALLEL_REQUESTS
  else configured

/-- A JS `Record<string, α>` private field. -/
def JsRecord (α : Type) : Type := String → Option α

/-- `record[k] = v`. -/
def JsRecord.set (m : JsRecord α) (k : String) (v : α) : JsRecord α :=
  fun x => if x = k then some v else m x

/-- `delete record[k]`. -/
def JsRecord.del (m : JsRecord α) (k : String) : JsRecord α :=
  fun x => if x = k then none else m x

/-- The mutable private state of a `SplitPdfHook` instance:
`#partitionResponses` (per-operation slot array) and `#partitionRequests`
(per-operation join promise, modelled by its presence). -/
structure HookState where
  partitionResponses : JsRecord (List (Option HResponse))
  partitionRequests : JsRecord Unit

/-- `#clearOperation`: delete both records for the operation id. -/
def clearOperation (st : HookState) (operationID : String) : HookState :=
  { partitionResponses := st.partitionResponses.del operationID,
    partitionRequests := st.partitionRequests.del operationID }

/-- One dispatched background task (the async closure for request `i`):
on a delivered response of status 200 the slot `i` is filled; a delivered
non-200 response changes nothing; a thrown transport error is caught and
logged. Returns the updated slots and the log output. -/
def runTask (client : Transport) (req : HRequest) (i : Nat)
    (slots : List (Option HResponse)) : List (Option HResponse) × List String :=
  match client req with
  | .ok response =>
      (if response.status = 200 then slots.set i (some response) else slots, [])
  | .error _ =>
      (slots, ["Failed to send request for page " ++ toString (i + 1) ++ "."])

/-- Run every indexed background task (the `async.parallelLimit` batch, here
in list order; execution-order independence is proved separately). -/
def runTasks (client : Transport) (tasks : List (Nat × HRequest))
    (slots : List (Option HResponse)) : List (Option HResponse) × List String :=
  match tasks with
  | [] => (slots, [])
  | t :: rest =>
      let r1 := runTask client t.2 t.1 slots
      let r2 := runTasks client rest r1.1
      (r2.1, r1.2 ++ r2.2)

/-- The observable outcome of one `beforeRequest` call: the returned value
(`none` models the `undefined` produced by `requests.at(-1)` on an empty
list, cast to `Request`), or a propagated exception; the hook state after the
call; the console output; and the concurrency bound passed to the dispatcher
(`none` when no dispatch happened). -/
structure BeforeOutcome where
  result : Except String (Option HRequest)
  state : HookState
  log : List String
  limitUsed : Option Int

/-- `beforeRequest`, parametrized by the collaborators: pdf-lib, the optional
HTTP client (`#client`), and the current value of the static
`SplitPdfHook.parallelLimit` field. -/
def beforeRequest (lib : PdfLib) (client : Option Transport) (parallelLimitCfg : Int)
    (st : HookState) (operationID : String) (request : HRequest) : BeforeOutcome :=
  let splitPdfPage :=
    stringToBoolean (formGetString request.form PARTITION_FORM_SPLIT_PDF_PAGE_KEY)
  if ¬ splitPdfPage then
    ⟨.ok (some request), st, [], none⟩
  else
    match fileOfForm request.form with
    | none =>
        ⟨.ok (some request), st,
          ["Given file is not a PDF. Continuing without splitting."], none⟩
    | some (nm, content) =>
      if ¬ strEndsWith nm ".pdf" then
        ⟨.ok (some request), st,
          ["Given file is not a PDF. Continuing without splitting."], none⟩
      else
        match client with
        | none =>
            ⟨.ok (some request), st,
              ["HTTP client not accessible! Continuing without splitting."], none⟩
        | some httpClient =>
          let fileName := replaceFirst nm ".pdf" ""
          match getPdfPages lib content with
          | .error e => ⟨.error e, st, [], none⟩
          | .ok pages =>
            let requests := buildPageRequests request fileName pages
            let limitLog := parallelLimitWarning parallelLimitCfg
            let limit := effectiveParallelLimit parallelLimitCfg
            let slots0 : List (Option HResponse) := List.replicate requests.length none
            let r := runTasks httpClient requests.dropLast.enum slots0
            let st1 : HookState :=
              { partitionResponses := st.partitionResponses.set operationID r.1,
                partitionRequests := st.partitionRequests.set operationID () }
            ⟨.ok requests.getLast?, st1, limitLog ++ r.2, some limit⟩

/-- `#awaitAllRequests`: `none` when no join promise is stored for the id
(no split happened); otherwise the stored slot array (defensively `[]` when
absent) with the empty slots filtered out, in slot order. -/
def awaitAllRequests (st : HookState) (operationID : String) :
    Option (List HResponse) :=
  match st.partitionRequests operationID with
  | none => none
  | some _ => some (((st.partitionResponses operationID).getD []).filterMap id)

/-- `#prepareResponseHeaders`: the response headers minus "content-length". -/
def prepareResponseHeaders (response : HResponse) : HHeaders :=
  HHeaders.del response.headers "content-length"

/-- `Array.prototype.flat()` (one level) on a list of parsed JSON bodies:
array elements are spliced in, non-array elements kept as-is. -/
def flattenOne : List Json → List Json
  | [] => []
  | .arr xs :: rest => xs ++ flattenOne rest
  | j :: rest => j :: flattenOne rest

/-- `#prepareResponseBody`: the JSON array collecting every input body,
flattened one level, in input order (the value whose `JSON.stringify` the
code returns). -/
def prepareResponseBody (responses : List HResponse) : Json :=
  .arr (flattenOne (responses.map HResponse.body))

/-- Outcome of `afterSuccess`: the response handed back to the pipeline and
the hook state after the call. -/
structure SuccessOutcome where
  response : HResponse
  state : HookState

/-- `afterSuccess`. -/
def afterSuccess (st : HookState) (operationID : String) (response : HResponse) :
    SuccessOutcome :=
  match awaitAllRequests st operationID with
  | none => ⟨response, st⟩
  | some responses =>
      let headers := prepareResponseHeaders response
      let body := prepareResponseBody (responses ++ [response])
      let st1 := clearOperation st operationID
      ⟨{ status := response.status, statusText := response.statusText,
         headers := headers, body := body }, st1⟩

/-- The net effect of one background task on its own slot: a delivered
status-200 response, else nothing (characterization used in theorems and
proved to agree with `runTask`). -/
def taskOutcome (client : Transport) (req : HRequest) : Option HResponse :=
  match client req with
  | .ok response => if response.status = 200 then some response else none
  | .error _ => none

/-- The console output of one background task: only a thrown transport error
logs (characterization used in theorems and proved to agree with
`runTask`). -/
def taskLog (client : Transport) (req : HRequest) (i : Nat) : List String :=
  match client req with
  | .ok _ => []
  | .error _ => ["Failed to send request for page " ++ toString (i + 1) ++ "."]

/-- Outcome of `afterError`: the (possibly replaced) response, the (possibly
suppressed) error, and the hook state after the call. -/
structure ErrorOutcome where
  response : Option HResponse
  error : Option String
  state : HookState

/-- `afterError`. -/
def afterError (st : HookState) (operationID : String)
    (response : Option HResponse) (error : Option String) : ErrorOutcome :=
  match awaitAllRequests st operationID with
  | none => ⟨response, error, clearOperation st operationID⟩
  | some [] => ⟨response, error, clearOperation st operationID⟩
  | some (okResponse :: rest) =>
      let headers := prepareResponseHeaders okResponse
      let body := prepareResponseBody (okResponse :: rest)
      ⟨some { status := okResponse.status, statusText := okResponse.statusText,
              headers := headers, body := body },
        none, clearOperation st operationID⟩

/-! Concrete fixtures (requests, documents, clients, states) used by the
closed witness and counterexample theorems below. -/

/-- A hook state with no in-flight operation. -/
def emptyState : HookState := ⟨fun _ => none, fun _ => none⟩

/-- A split-enabled multipart request carrying a PDF file. -/
def pdfSplitRequest : HRequest :=
  { headers := [("content-type", "multipart/form-data"), ("accept", "application/json")],
    form := [(PARTITION_FORM_SPLIT_PDF_PAGE_KEY, .str "true"),
             (PARTITION_FORM_FILES_KEY, .file "doc.pdf" [1, 2, 3])] }

/-- A split-enabled multipart request whose file is not a PDF. -/
def txtSplitRequest : HRequest :=
  { headers := [("content-type", "multipart/form-data")],
    form := [(PARTITION_FORM_SPLIT_PDF_PAGE_KEY, .str "true"),
             (PARTITION_FORM_FILES_KEY, .file "doc.txt" [1])] }

/-- A multipart request with the split flag set to "false". -/
def noSplitRequest : HRequest :=
  { headers := [("content-type", "multipart/form-data")],
    form := [(PARTITION_FORM_SPLIT_PDF_PAGE_KEY, .str "false"),
             (PARTITION_FORM_FILES_KEY, .file "doc.pdf" [1])] }

/-- A split-enabled request whose file name contains ".pdf" twice, the first
occurrence not at the end. -/
def oddNameRequest : HRequest :=
  { headers := [],
    form := [(PARTITION_FORM_SPLIT_PDF_PAGE_KEY, .str "true"),
             (PARTITION_FORM_FILES_KEY, .file "a.pdfb.pdf" [5])] }

/-- pdf-lib behaviour: every document loads as two pages. -/
def twoPageLib : PdfLib := ⟨fun _ => .ok [[10], [20]]⟩

/-- pdf-lib behaviour: every document loads as one page. -/
def onePageLib : PdfLib := ⟨fun _ => .ok [[7]]⟩

/-- pdf-lib behaviour: every document loads as zero pages. -/
def zeroPageLib : PdfLib := ⟨fun _ => .ok []⟩

/-- pdf-lib behaviour: loading always fails. -/
def badLib : PdfLib := ⟨fun _ => .error "failed to parse document"⟩

/-- A one-element JSON array body. -/
def okBody : Json := .arr [.obj [("id", .num 1)]]

/-- A delivered 200 response. -/
def okResponse : HResponse := ⟨200, "OK", [("content-length", "5"), ("x", "y")], okBody⟩

/-- A delivered 500 response. -/
def badResponse : HResponse := ⟨500, "Internal Server Error", [], .null⟩

/-- A transport that always delivers `okResponse`. -/
def okClient : Transport := fun _ => .ok okResponse

/-- A transport that always delivers `badResponse`. -/
def badStatusClient : Transport := fun _ => .ok badResponse

/-- A transport that always throws. -/
def failClient : Transport := fun _ => .error "network down"

/-- A state holding the operation "op" with one filled and one empty slot. -/
def pendingState : HookState :=
  ⟨fun x => if x = "op" then some [some okResponse, none] else none,
   fun x => if x = "op" then some () else none⟩

/-- A state holding the operation "op" with only empty slots. -/
def emptyPendingState : HookState :=
  ⟨fun x => if x = "op" then some [none, none] else none,
   fun x => if x = "op" then some () else none⟩

/-- The final-page response handed to the post-response hooks. -/
def finalResponse : HResponse :=
  ⟨200, "OK", [("content-length", "99"), ("h", "v")], .arr [.num 9]⟩

/-! Helper lemmas. -/

/-- The page-extraction loop of `#getPdfPages` reproduces the loaded pages. -/
theorem map_pdfPageToBlob_range (l : List Bytes) :
    (List.range l.length).map (pdfPageToBlob l) = l := by
  induction l with
  | nil => rfl
  | cons a t ih =>
      rw [List.length_cons, List.range_succ_eq_map, List.map_cons, List.map_map]
      have hc : (pdfPageToBlob (a :: t)) ∘ Nat.succ = pdfPageToBlob t := by
        funext i
        simp [pdfPageToBlob]
      rw [hc, ih]
      simp [pdfPageToBlob]

/-- `#getPdfPages` is exactly the paging capability. -/
theorem getPdfPages_eq_load (lib : PdfLib) (f : Bytes) :
    getPdfPages lib f = lib.load f := by
  unfold getPdfPages
  cases h : lib.load f with
  | error e => rfl
  | ok pdf => simp [map_pdfPageToBlob_range]

/-- Unfolding of `beforeRequest` on the split path. -/
theorem beforeRequest_split_eq
    (lib : PdfLib) (client : Transport) (cfg : Int) (st : HookState)
    (op : String) (request : HRequest) (nm : String) (content : Bytes)
    (pages : List Bytes)
    (hsplit : stringToBoolean
      (formGetString request.form PARTITION_FORM_SPLIT_PDF_PAGE_KEY) = true)
    (hfile : fileOfForm request.form = some (nm, content))
    (hpdf : strEndsWith nm ".pdf" = true)
    (hload : lib.load content = .ok pages) :
    beforeRequest lib (some client) cfg st op request =
      ⟨.ok (buildPageRequests request (replaceFirst nm ".pdf" "") pages).getLast?,
        ⟨st.partitionResponses.set op
            (runTasks client
              (buildPageRequests request (replaceFirst nm ".pdf" "") pages).dropLast.enum
              (List.replicate
                (buildPageRequests request (replaceFirst nm ".pdf" "") pages).length
                none)).1,
          st.partitionRequests.set op ()⟩,
        parallelLimitWarning cfg ++
          (runTasks client
            (buildPageRequests request (replaceFirst nm ".pdf" "") pages).dropLast.enum
            (List.replicate
              (buildPageRequests request (replaceFirst nm ".pdf" "") pages).length
              none)).2,
        some (effectiveParallelLimit cfg)⟩ := by
  unfold beforeRequest
  rw [hsplit, hfile]
  simp [getPdfPages_eq_load, hload, hpdf]

/-- Unfolding of `beforeRequest` when the document fails to load. -/
theorem beforeRequest_fatal_eq
    (lib : PdfLib) (client : Transport) (cfg : Int) (st : HookState)
    (op : String) (request : HRequest) (nm : String) (content : Bytes)
    (e : String)
    (hsplit : stringToBoolean
      (formGetString request.form PARTITION_FORM_SPLIT_PDF_PAGE_KEY) = true)
    (hfile : fileOfForm request.form = some (nm, content))
    (hpdf : strEndsWith nm ".pdf" = true)
    (hload : lib.load content = .error e) :
    beforeRequest lib (some client) cfg st op request = ⟨.error e, st, [], none⟩ := by
  unfold beforeRequest
  rw [hsplit, hfile]
  simp [getPdfPages_eq_load, hload, hpdf]

/-- C5 counterexample: for a split-enabled request whose file is not a PDF,
the skip DOES log a warning, contradicting the claim that no warning is
logged in the first two skip cases. -/
theorem c5_nonpdf_skip_warns :
    (beforeRequest onePageLib (some okClient) 5 emptyState "op" txtSplitRequest).log
      = ["Given file is not a PDF. Continuing without splitting."]
    ∧ (beforeRequest onePageLib (some okClient) 5 emptyState "op" txtSplitRequest).log
      ≠ [] := by
  constructor
  · rfl
  · decide

/-- C5 (amended): on each skip path `beforeRequest` returns the original
request unchanged and creates no operation state; the split-flag-false case
is silent, while BOTH the non-PDF case and the missing-transport case log a
warning. -/
theorem c5_skip_paths (lib : PdfLib) (client : Option Transport) (cfg : Int)
    (st : HookState) (op : String) (request : HRequest) :
    (stringToBoolean
        (formGetString request.form PARTITION_FORM_SPLIT_PDF_PAGE_KEY) = false →
      beforeRequest lib client cfg st op request = ⟨.ok (some request), st, [], none⟩)
    ∧ (stringToBoolean
        (formGetString request.form PARTITION_FORM_SPLIT_PDF_PAGE_KEY) = true →
        fileOfForm request.form = none →
        beforeRequest lib client cfg st op request
          = ⟨.ok (some request), st,
              ["Given file is not a PDF. Continuing without splitting."], none⟩)
    ∧ (∀ nm content, stringToBoolean
        (formGetString request.form PARTITION_FORM_SPLIT_PDF_PAGE_KEY) = true →
        fileOfForm request.form = some (nm, content) →
        strEndsWith nm ".pdf" = false →
        beforeRequest lib client cfg st op request
          = ⟨.ok (some request), st,
              ["Given file is not a PDF. Continuing without splitting."], none⟩)
    ∧ (∀ nm content, stringToBoolean
        (formGetString request.form PARTITION_FORM_SPLIT_PDF_PAGE_KEY) = true →
        fileOfForm request.form = some (nm, content) →
        strEndsWith nm ".pdf" = true →
        beforeRequest lib none cfg st op request
          = ⟨.ok (some request), st,
              ["HTTP client not accessible! Continuing without splitting."], none⟩) := by
  refine ⟨fun h => ?_, fun h hf => ?_, fun nm content h hf hp => ?_,
    fun nm content h hf hp => ?_⟩
  · simp [beforeRequest, h]
  · simp [beforeRequest, h, hf]
  · simp [beforeRequest, h, hf, hp]
  · simp [beforeRequest, h, hf, hp]

/-- C5 witness: a request with split flag "false" passes through unchanged
with no warning and no state. -/
theorem c5_skip_paths_witness :
    beforeRequest onePageLib (some okClient) 5 emptyState "op" noSplitRequest
      = ⟨.ok (some noSplitRequest), emptyState, [], none⟩ :=
  (c5_skip_paths onePageLib (some okClient) 5 emptyState "op" noSplitRequest).1
    (by decide)

/-- C9: when the document cannot be parsed, the paging failure propagates
verbatim out of `beforeRequest`, the store is untouched, nothing is logged,
no dispatch happened (the outcome does not depend on the HTTP client and no
concurrency bound was passed to the dispatcher). -/
theorem c9_fatal_failure (lib : PdfLib) (client : Transport) (cfg : Int)
    (st : HookState) (op : String) (request : HRequest) (nm : String)
    (content : Bytes) (e : String)
    (hsplit : stringToBoolean
      (formGetString request.form PARTITION_FORM_SPLIT_PDF_PAGE_KEY) = true)
    (hfile : fileOfForm request.form = some (nm, content))
    (hpdf : strEndsWith nm ".pdf" = true)
    (hload : lib.load content = .error e) :
    beforeRequest lib (some client) cfg st op request = ⟨.error e, st, [], none⟩
    ∧ ∀ client2 : Transport,
        beforeRequest lib (some client2) cfg st op request
          = beforeRequest lib (some client) cfg st op request := by
  constructor
  · exact beforeRequest_fatal_eq lib client cfg st op request nm content e
      hsplit hfile hpdf hload
  · intro client2
    rw [beforeRequest_fatal_eq lib client cfg st op request nm content e
      hsplit hfile hpdf hload,
      beforeRequest_fatal_eq lib client2 cfg st op request nm content e
      hsplit hfile hpdf hload]

/-- C9 witness: a malformed PDF propagates the load failure with the store
unchanged. -/
theorem c9_fatal_failure_witness :
    beforeRequest badLib (some okClient) 5 emptyState "op" pdfSplitRequest
      = ⟨.error "failed to parse document", emptyState, [], none⟩ :=
  (c9_fatal_failure badLib okClient 5 emptyState "op" pdfSplitRequest
    "doc.pdf" [1, 2, 3] "failed to parse document" (by decide) rfl (by decide) rfl).1

/-- C10: the value `beforeRequest` returns on the split path is the last
derived request if any; with a zero-page document the derived request list is
empty and the returned value is the `undefined` of `requests.at(-1)` (modelled
`none`), breaching the declared `Request` return type; with at least one page
an actual request is returned. -/
theorem c10_zero_pages (lib : PdfLib) (client : Transport) (cfg : Int)
    (st : HookState) (op : String) (request : HRequest) (nm : String)
    (content : Bytes) (pages : List Bytes)
    (hsplit : stringToBoolean
      (formGetString request.form PARTITION_FORM_SPLIT_PDF_PAGE_KEY) = true)
    (hfile : fileOfForm request.form = some (nm, content))
    (hpdf : strEndsWith nm ".pdf" = true)
    (hload : lib.load content = .ok pages) :
    ((beforeRequest lib (some client) cfg st op request).result
        = .ok (buildPageRequests request (replaceFirst nm ".pdf" "") pages).getLast?)
    ∧ (pages = [] →
        buildPageRequests request (replaceFirst nm ".pdf" "") pages = []
        ∧ (beforeRequest lib (some client) cfg st op request).result = .ok none)
    ∧ (pages ≠ [] →
        ∃ r, (beforeRequest lib (some client) cfg st op request).result
          = .ok (some r)) := by
  have hb := beforeRequest_split_eq lib client cfg st op request nm content pages
    hsplit hfile hpdf hload
  refine ⟨?_, ?_, ?_⟩
  · rw [hb]
  · intro hp
    subst hp
    refine ⟨rfl, ?_⟩
    rw [hb]
    rfl
  · intro hp
    have hne : buildPageRequests request (replaceFirst nm ".pdf" "") pages ≠ [] := by
      intro hcon
      apply hp
      have := congrArg List.length hcon
      simp [buildPageRequests] at this
      exact this
    refine ⟨(buildPageRequests request (replaceFirst nm ".pdf" "") pages).getLast hne, ?_⟩
    rw [hb]
    rw [List.getLast?_eq_getLast _ hne]

/-- C10 witness: with a zero-page PDF the hook returns no request. -/
theorem c10_zero_pages_witness :
    (beforeRequest zeroPageLib (some okClient) 5 emptyState "op" pdfSplitRequest).result
      = .ok none :=
  ((c10_zero_pages zeroPageLib okClient 5 emptyState "op" pdfSplitRequest
    "doc.pdf" [1, 2, 3] [] (by decide) rfl (by decide) rfl).2.1 rfl).2

/-- C4 counterexample: a configured parallelism of 0 (≤ 0) is passed to the
dispatcher unchanged, not replaced by the claimed fallback of 5. -/
theorem c4_nonpositive_limit_passed_through :
    (beforeRequest onePageLib (some okClient) 0 emptyState "op" pdfSplitRequest).limitUsed
      = some 0
    ∧ (0 : Int) ≤ 0 ∧ (0 : Int) ≠ 5 := by
  refine ⟨rfl, by decide, by decide⟩

/-- C4 (amended): the concurrency bound actually passed to the dispatcher is
`min(configured, 15)`; values above 15 are reduced to 15 with a warning and
values at most 15 produce no warning; the unset default of the static field
is 5; no fallback is applied to non-positive configured values. -/
theorem c4_parallel_limit (lib : PdfLib) (client : Transport) (cfg : Int)
    (st : HookState) (op : String) (request : HRequest) (nm : String)
    (content : Bytes) (pages : List Bytes)
    (hsplit : stringToBoolean
      (formGetString request.form PARTITION_FORM_SPLIT_PDF_PAGE_KEY) = true)
    (hfile : fileOfForm request.form = some (nm, content))
    (hpdf : strEndsWith nm ".pdf" = true)
    (hload : lib.load content = .ok pages) :
    effectiveParallelLimit cfg = min cfg MAX_NUMBER_OF_PARALLEL_REQUESTS
    ∧ (MAX_NUMBER_OF_PARALLEL_REQUESTS < cfg → parallelLimitWarning cfg ≠ [])
    ∧ (cfg ≤ MAX_NUMBER_OF_PARALLEL_REQUESTS → parallelLimitWarning cfg = [])
    ∧ defaultParallelLimit = 5
    ∧ (beforeRequest lib (some client) cfg st op request).limitUsed
        = some (effectiveParallelLimit cfg) := by
  refine ⟨?_, fun h => ?_, fun h => ?_, rfl, ?_⟩
  · unfold effectiveParallelLimit
    rcases le_or_lt cfg MAX_NUMBER_OF_PARALLEL_REQUESTS with h | h
    · rw [if_neg (by omega), min_eq_left h]
    · rw [if_pos h, min_eq_right (le_of_lt h)]
  · unfold parallelLimitWarning
    rw [if_pos h]
    simp
  · unfold parallelLimitWarning
    rw [if_neg (by omega)]
  · rw [beforeRequest_split_eq lib client cfg st op request nm content pages
      hsplit hfile hpdf hload]

/-- C4 witness: a configured parallelism of 20 reaches the dispatcher
clamped to 15. -/
theorem c4_parallel_limit_witness :
    (beforeRequest onePageLib (some okClient) 20 emptyState "op" pdfSplitRequest).limitUsed
      = some (effectiveParallelLimit 20) :=
  (c4_parallel_limit onePageLib okClient 20 emptyState "op" pdfSplitRequest
    "doc.pdf" [1, 2, 3] [[7]] (by decide) rfl (by decide) rfl).2.2.2.2

/-- Deleting a key twice from a record is the same as deleting it once. -/
theorem JsRecord.del_del (m : JsRecord α) (k : String) :
    (m.del k).del k = m.del k := by
  funext x
  by_cases h : x = k <;> simp [JsRecord.del, h]

/-- `awaitAllRequests` under a stored join promise. -/
theorem awaitAllRequests_eq_collected (st : HookState) (op : String)
    (h : st.partitionRequests op = some ()) :
    awaitAllRequests st op
      = some (((st.partitionResponses op).getD []).filterMap id) := by
  unfold awaitAllRequests
  rw [h]

/-- C2: when an operation exists for the id, `afterSuccess` returns the merge
whose primary is the final response: the status and status text of the final
response, its headers minus content-length, and as body the one-level flattening
of the parsed bodies of the collected non-empty slots (in slot order)
followed by the final response; the operation state is cleared. -/
theorem c2_after_success_merge (st : HookState) (op : String) (resp : HResponse)
    (h : st.partitionRequests op = some ()) :
    afterSuccess st op resp =
      ⟨{ status := resp.status, statusText := resp.statusText,
         headers := resp.headers.filter (fun p => p.1 ≠ "content-length"),
         body := .arr (flattenOne
           (((((st.partitionResponses op).getD []).filterMap id) ++ [resp]).map
             HResponse.body)) },
        clearOperation st op⟩ := by
  unfold afterSuccess
  rw [awaitAllRequests_eq_collected st op h]
  simp [prepareResponseHeaders, prepareResponseBody, HHeaders.del]

/-- C2 witness: merging one collected background response with the final
response of the visible request. -/
theorem c2_after_success_merge_witness :
    afterSuccess pendingState "op" finalResponse =
      ⟨{ status := finalResponse.status, statusText := finalResponse.statusText,
         headers := finalResponse.headers.filter (fun p => p.1 ≠ "content-length"),
         body := .arr (flattenOne
           (((((pendingState.partitionResponses "op").getD []).filterMap id)
              ++ [finalResponse]).map HResponse.body)) },
        clearOperation pendingState "op"⟩ :=
  c2_after_success_merge pendingState "op" finalResponse rfl

/-- C1: when an operation exists for the id, `afterError` returns the
original response and error with the state cleared if no background slot was
filled; otherwise it returns a merge of the collected background responses
only (the failing final response excluded) whose primary is the first
collected response, reported as a success with a null error. -/
theorem c1_after_error (st : HookState) (op : String) (resp : Option HResponse)
    (err : Option String) (h : st.partitionRequests op = some ()) :
    ((((st.partitionResponses op).getD []).filterMap id) = [] →
      afterError st op resp err = ⟨resp, err, clearOperation st op⟩)
    ∧ (∀ ok rest, (((st.partitionResponses op).getD []).filterMap id) = ok :: rest →
        afterError st op resp err =
          ⟨some { status := ok.status, statusText := ok.statusText,
                  headers := ok.headers.filter (fun p => p.1 ≠ "content-length"),
                  body := .arr (flattenOne ((ok :: rest).map HResponse.body)) },
            none, clearOperation st op⟩) := by
  constructor
  · intro hc
    unfold afterError
    rw [awaitAllRequests_eq_collected st op h, hc]
  · intro ok rest hc
    unfold afterError
    rw [awaitAllRequests_eq_collected st op h, hc]
    simp [prepareResponseHeaders, prepareResponseBody, HHeaders.del]

/-- C1 witness: with one filled background slot and a failing final page, the
merge of the collected responses alone is returned as a success with a null
error. -/
theorem c1_after_error_witness :
    afterError pendingState "op" (some badResponse) (some "boom") =
      ⟨some { status := okResponse.status, statusText := okResponse.statusText,
              headers := okResponse.headers.filter (fun p => p.1 ≠ "content-length"),
              body := .arr (flattenOne ((okResponse :: []).map HResponse.body)) },
        none, clearOperation pendingState "op"⟩ :=
  (c1_after_error pendingState "op" (some badResponse) (some "boom") rfl).2
    okResponse [] rfl

/-- The state left by `afterError` always has the operation cleared. -/
theorem afterError_state_cleared (st : HookState) (op : String)
    (resp : Option HResponse) (err : Option String) :
    (afterError st op resp err).state = clearOperation st op := by
  unfold afterError
  cases awaitAllRequests st op with
  | none => rfl
  | some l => cases l with
    | nil => rfl
    | cons a t => rfl

/-- C7: after `afterSuccess` or `afterError` finishes for an id (under the
reachability invariant that a slot array is only stored together with its
join promise), neither the slot array nor the join promise remains stored for
that id, and clearing the same id a second time is harmless. -/
theorem c7_cleanup (st : HookState) (op : String) (resp : HResponse)
    (respE : Option HResponse) (err : Option String)
    (hinv : (st.partitionResponses op).isSome = true →
      (st.partitionRequests op).isSome = true) :
    ((afterSuccess st op resp).state.partitionResponses op = none
      ∧ (afterSuccess st op resp).state.partitionRequests op = none)
    ∧ (∀ st2 : HookState,
        (afterError st2 op respE err).state.partitionResponses op = none
        ∧ (afterError st2 op respE err).state.partitionRequests op = none)
    ∧ clearOperation (clearOperation st op) op = clearOperation st op := by
  refine ⟨?_, ?_, ?_⟩
  · cases hreq : st.partitionRequests op with
    | none =>
        have hresp : st.partitionResponses op = none := by
          cases hr : st.partitionResponses op with
          | none => rfl
          | some v =>
              have := hinv (by rw [hr]; rfl)
              rw [hreq] at this
              exact absurd this (by simp)
        unfold afterSuccess awaitAllRequests
        rw [hreq]
        exact ⟨hresp, hreq⟩
    | some u =>
        unfold afterSuccess awaitAllRequests
        rw [hreq]
        simp [clearOperation, JsRecord.del]
  · intro st2
    rw [afterError_state_cleared]
    simp [clearOperation, JsRecord.del]
  · unfold clearOperation
    simp [JsRecord.del_del]

/-- C7 witness: after a successful merge for "op", no state remains for
"op". -/
theorem c7_cleanup_witness :
    (afterSuccess pendingState "op" finalResponse).state.partitionResponses "op" = none
    ∧ (afterSuccess pendingState "op" finalResponse).state.partitionRequests "op" = none :=
  (c7_cleanup pendingState "op" finalResponse (some badResponse) (some "boom")
    (fun _ => rfl)).1

/-- A task does not change the slot count. -/
theorem runTask_length (c : Transport) (req : HRequest) (i : Nat)
    (slots : List (Option HResponse)) :
    (runTask c req i slots).1.length = slots.length := by
  unfold runTask
  cases c req with
  | ok r => by_cases hr : r.status = 200 <;> simp [hr, List.length_set]
  | error e => rfl

/-- A batch of tasks does not change the slot count (the container is never
resized). -/
theorem runTasks_length (c : Transport) (tasks : List (Nat × HRequest))
    (slots : List (Option HResponse)) :
    (runTasks c tasks slots).1.length = slots.length := by
  induction tasks generalizing slots with
  | nil => rfl
  | cons t rest ih =>
      simp only [runTasks]
      rw [ih ((runTask c t.2 t.1 slots).1), runTask_length]

/-- A task combines with its own slot exactly as `taskOutcome`. -/
theorem runTask_getD_self (c : Transport) (req : HRequest) (i : Nat)
    (slots : List (Option HResponse)) (hi : i < slots.length) :
    (runTask c req i slots).1.getD i none
      = (taskOutcome c req).or (slots.getD i none) := by
  unfold runTask taskOutcome
  cases c req with
  | ok r =>
      by_cases hr : r.status = 200
      · simp only [hr, if_pos rfl, if_true]
        rw [List.getD_eq_getElem?_getD, List.getElem?_set_self hi]
        rfl
      · simp [hr, Option.none_or]
  | error e => simp [Option.none_or]

/-- A task writes no slot other than its own. -/
theorem runTask_getD_ne (c : Transport) (req : HRequest) (i j : Nat)
    (hij : i ≠ j) (slots : List (Option HResponse)) :
    (runTask c req i slots).1.getD j none = slots.getD j none := by
  unfold runTask
  cases c req with
  | ok r =>
      by_cases hr : r.status = 200
      · simp only [hr, if_pos rfl, if_true]
        rw [List.getD_eq_getElem?_getD, List.getElem?_set_ne hij,
          List.getD_eq_getElem?_getD]
      · simp [hr]
  | error e => rfl

/-- Slot `i` after running the tasks enumerated from `k` holds the outcome of
task `i` when `i` lies in the task range, and is untouched otherwise. -/
theorem runTasks_getD (c : Transport) (l : List HRequest) (k : Nat)
    (slots : List (Option HResponse)) (i : Nat) (hi : i < slots.length) :
    (runTasks c (l.enumFrom k) slots).1.getD i none =
      if k ≤ i ∧ i < k + l.length
      then (taskOutcome c (l.getD (i - k) ⟨[], []⟩)).or (slots.getD i none)
      else slots.getD i none := by
  induction l generalizing k slots with
  | nil =>
      rw [if_neg (by simp only [List.length_nil]; omega)]
      rfl
  | cons a t ih =>
      rw [List.enumFrom_cons]
      simp only [runTasks]
      have hs1 : ((runTask c a k slots).1).length = slots.length :=
        runTask_length c a k slots
      rw [ih (k + 1) ((runTask c a k slots).1) (by rw [hs1]; exact hi)]
      by_cases hik : i = k
      · subst hik
        rw [if_neg (by omega), if_pos (by simp only [List.length_cons]; omega)]
        rw [runTask_getD_self c a i slots hi]
        simp [Nat.sub_self, List.getD_cons_zero]
      · rw [runTask_getD_ne c a k i (fun he => hik he.symm) slots]
        by_cases hcond : k ≤ i ∧ i < k + (a :: t).length
        · rw [if_pos hcond]
          have hk1 : k + 1 ≤ i := by
            rcases hcond with ⟨h1, _⟩
            omega
          rw [if_pos (by simp only [List.length_cons] at hcond ⊢; omega)]
          have hsub : i - k = (i - (k + 1)) + 1 := by omega
          rw [hsub, List.getD_cons_succ]
        · rw [if_neg hcond, if_neg (by simp only [List.length_cons] at hcond ⊢; omega)]

/-- The console output of a task batch is the concatenation of the per-task
logs: transport errors log, everything else is silent. -/
theorem runTasks_log (c : Transport) (tasks : List (Nat × HRequest))
    (slots : List (Option HResponse)) :
    (runTasks c tasks slots).2 = tasks.flatMap (fun t => taskLog c t.2 t.1) := by
  induction tasks generalizing slots with
  | nil => rfl
  | cons t rest ih =>
      simp only [runTasks, List.flatMap_cons]
      rw [ih]
      congr 1
      unfold runTask taskLog
      cases c t.2 with
      | ok r => by_cases hr : r.status = 200 <;> simp [hr]
      | error e => rfl

/-- Two tasks with different indices commute on the slot array. -/
theorem runTask_comm (c : Transport) (x y : Nat × HRequest) (hxy : x.1 ≠ y.1)
    (slots : List (Option HResponse)) :
    (runTask c y.2 y.1 (runTask c x.2 x.1 slots).1).1
      = (runTask c x.2 x.1 (runTask c y.2 y.1 slots).1).1 := by
  unfold runTask
  cases c x.2 with
  | ok rx =>
      cases c y.2 with
      | ok ry =>
          by_cases hx : rx.status = 200 <;> by_cases hy : ry.status = 200 <;>
            simp [hx, hy]
          exact List.set_comm _ _ _ hxy
      | error ey => by_cases hx : rx.status = 200 <;> simp [hx]
  | error ex =>
      cases c y.2 with
      | ok ry => by_cases hy : ry.status = 200 <;> simp [hy]
      | error ey => rfl

/-- Running the tasks in any other order (any permutation, e.g. by completion
instead of by dispatch) produces the same slot array, provided the task
indices are pairwise distinct. -/
theorem runTasks_fst_perm (c : Transport) {t1 t2 : List (Nat × HRequest)}
    (h : t1.Perm t2) :
    ∀ slots, (t1.map Prod.fst).Nodup →
      (runTasks c t1 slots).1 = (runTasks c t2 slots).1 := by
  induction h with
  | nil =>
      intro slots _
      rfl
  | cons x h ih =>
      intro slots hnd
      simp only [List.map_cons, List.nodup_cons] at hnd
      simp only [runTasks]
      exact ih _ hnd.2
  | swap x y l =>
      intro slots hnd
      simp only [List.map_cons, List.nodup_cons, List.mem_cons] at hnd
      have hyx : y.1 ≠ x.1 := fun he => hnd.1 (Or.inl he)
      simp only [runTasks]
      rw [runTask_comm c y x hyx slots]
  | trans h1 h2 ih1 ih2 =>
      intro slots hnd
      rw [ih1 slots hnd, ih2 slots (((h1.map Prod.fst).nodup_iff).mp hnd)]

/-- An all-empty slot array reads `none` everywhere. -/
theorem getD_replicate_none (n i : Nat) :
    (List.replicate n (none : Option HResponse)).getD i none = none := by
  rw [List.getD_eq_getElem?_getD, List.getElem?_replicate]
  by_cases h : i < n <;> simp [h]

/-- C3 counterexample: a background request answered with a non-200 status
leaves its slot empty but logs NOTHING, contradicting the claim that such a
failure is logged. -/
theorem c3_non200_not_logged :
    runTask badStatusClient pdfSplitRequest 0 [none] = ([none], [])
    ∧ badResponse.status ≠ 200 := by
  exact ⟨rfl, by decide⟩

/-- C3 (amended): slot `i` of the dispatched batch ends up holding exactly
the outcome of request `i` (filled with the delivered response iff its status
is 200, by original request index); a delivered 200 fills the own slot of
the task, a delivered non-200 is silently dropped, a thrown transport error is
logged and swallowed; the batch log is the concatenation of the per-task
logs; and executing the tasks in any other order yields the same slot
array. -/
theorem c3_dispatch_slots (client : Transport) (reqs : List HRequest) (n i : Nat)
    (_hn : reqs.length ≤ n) (hi : i < n) :
    ((runTasks client reqs.enum (List.replicate n none)).1.getD i none
        = if i < reqs.length then taskOutcome client (reqs.getD i ⟨[], []⟩)
          else none)
    ∧ (runTasks client reqs.enum (List.replicate n none)).2
        = reqs.enum.flatMap (fun t => taskLog client t.2 t.1)
    ∧ (∀ req slots r, client req = .ok r → r.status = 200 →
          runTask client req i slots = (slots.set i (some r), []))
    ∧ (∀ req slots r, client req = .ok r → r.status ≠ 200 →
          runTask client req i slots = (slots, []))
    ∧ (∀ req slots e, client req = .error e →
          runTask client req i slots
            = (slots, ["Failed to send request for page " ++ toString (i + 1) ++ "."]))
    ∧ (∀ tasks2 slots, reqs.enum.Perm tasks2 →
          (runTasks client reqs.enum slots).1 = (runTasks client tasks2 slots).1) := by
  refine ⟨?_, ?_, ?_, ?_, ?_, ?_⟩
  · rw [List.enum_eq_enumFrom,
      runTasks_getD client reqs 0 (List.replicate n none) i
        (by rw [List.length_replicate]; exact hi)]
    by_cases hl : i < reqs.length
    · rw [if_pos (by omega), if_pos hl]
      rw [getD_replicate_none, Option.or_none]
      simp
    · rw [if_neg (by omega), if_neg hl]
      exact getD_replicate_none n i
  · exact runTasks_log client reqs.enum (List.replicate n none)
  · intro req slots r hr h200
    unfold runTask
    rw [hr]
    simp [h200]
  · intro req slots r hr h200
    unfold runTask
    rw [hr]
    simp [h200]
  · intro req slots e hr
    unfold runTask
    rw [hr]
  · intro tasks2 slots hperm
    refine runTasks_fst_perm client hperm slots ?_
    rw [List.enum_map_fst]
    exact List.nodup_range reqs.length

/-- C3 witness: in a two-request batch on a 200-delivering transport, slot 1
holds exactly the outcome of request 1. -/
theorem c3_dispatch_slots_witness :
    (runTasks okClient ([pdfSplitRequest, txtSplitRequest].enum)
        (List.replicate 3 none)).1.getD 1 none
      = if 1 < ([pdfSplitRequest, txtSplitRequest] : List HRequest).length
        then taskOutcome okClient
          (([pdfSplitRequest, txtSplitRequest] : List HRequest).getD 1 ⟨[], []⟩)
        else none :=
  (c3_dispatch_slots okClient [pdfSplitRequest, txtSplitRequest] 3 1
    (by decide) (by decide)).1

/-- The loop builds one derived request per page. -/
theorem buildPageRequests_length (request : HRequest) (fn : String)
    (pages : List Bytes) :
    (buildPageRequests request fn pages).length = pages.length := by
  simp [buildPageRequests]

/-- C8 counterexample: for a 2-page split (N = 2) the stored slot container
has length 2 (= N), not the claimed N − 1 = 1. -/
theorem c8_container_sized_n :
    ((beforeRequest twoPageLib (some okClient) 5 emptyState "op"
        pdfSplitRequest).state.partitionResponses "op").map List.length
      = some 2
    ∧ (2 : Nat) ≠ 2 - 1 := by
  exact ⟨rfl, by decide⟩

/-- C8 (amended): the slot container registered for the operation has fixed
length N (one slot per derived request, `new Array(requests.length)`; only
the first N − 1 slots belong to background tasks and the last is never
filled), and no task run ever changes the length of a slot container. -/
theorem c8_slot_container (lib : PdfLib) (client : Transport) (cfg : Int)
    (st : HookState) (op : String) (request : HRequest) (nm : String)
    (content : Bytes) (pages : List Bytes)
    (hsplit : stringToBoolean
      (formGetString request.form PARTITION_FORM_SPLIT_PDF_PAGE_KEY) = true)
    (hfile : fileOfForm request.form = some (nm, content))
    (hpdf : strEndsWith nm ".pdf" = true)
    (hload : lib.load content = .ok pages) :
    (∃ slots,
      (beforeRequest lib (some client) cfg st op request).state.partitionResponses op
        = some slots
      ∧ slots.length = pages.length)
    ∧ (∀ (c2 : Transport) (tasks : List (Nat × HRequest))
        (s : List (Option HResponse)), (runTasks c2 tasks s).1.length = s.length) := by
  constructor
  · rw [beforeRequest_split_eq lib client cfg st op request nm content pages
      hsplit hfile hpdf hload]
    refine ⟨(runTasks client
        (buildPageRequests request (replaceFirst nm ".pdf" "") pages).dropLast.enum
        (List.replicate
          (buildPageRequests request (replaceFirst nm ".pdf" "") pages).length
          none)).1, ?_, ?_⟩
    · simp [JsRecord.set]
    · rw [runTasks_length, List.length_replicate, buildPageRequests_length]
  · intro c2 tasks s
    exact runTasks_length c2 tasks s

/-- C8 witness: a 2-page split stores a container of 2 slots. -/
theorem c8_slot_container_witness :
    ∃ slots,
      (beforeRequest twoPageLib (some failClient) 5 emptyState "op"
          pdfSplitRequest).state.partitionResponses "op" = some slots
      ∧ slots.length = ([[10], [20]] : List Bytes).length :=
  (c8_slot_container twoPageLib failClient 5 emptyState "op" pdfSplitRequest
    "doc.pdf" [1, 2, 3] [[10], [20]] (by decide) rfl (by decide) rfl).1

/-- Element `j` of the built page-request list. -/
theorem buildPageRequests_get (request : HRequest) (fn : String)
    (pages : List Bytes) (j : Nat) (pg : Bytes) (hj : pages[j]? = some pg) :
    (buildPageRequests request fn pages)[j]? = some (pageRequest request fn j pg) := by
  unfold buildPageRequests
  rw [List.getElem?_map, List.getElem?_enum, hj]
  rfl

/-- C6 counterexample: for the file name "a.pdfb.pdf" the derived request is
named from the name with its FIRST ".pdf" occurrence removed ("ab.pdf"), not
from the original stem "a.pdfb", so the produced name is "ab.pdf-1.pdf"
rather than "a.pdfb-1.pdf". -/
theorem c6_name_not_stem :
    (match (beforeRequest onePageLib (some okClient) 5 emptyState "op"
        oddNameRequest).result with
      | .ok (some r) => fileOfForm r.form
      | _ => none) = some ("ab.pdf-1.pdf", [7])
    ∧ ("ab.pdf-1.pdf" : String) ≠ "a.pdfb" ++ "-" ++ toString 1 ++ ".pdf" := by
  exact ⟨rfl, by decide⟩

/-- C6 (amended): for a split-enabled PDF with N pages, exactly N derived
requests are built, in source page order; request j carries the source
headers minus content-type, the source form minus the split-flag and file
entries, the split flag re-appended as "false", and exactly page j as its
file, named `<name with the first ".pdf" occurrence removed>-<j+1>.pdf`
(1-based); the last derived request is the value `beforeRequest` returns. -/
theorem c6_page_requests (lib : PdfLib) (client : Transport) (cfg : Int)
    (st : HookState) (op : String) (request : HRequest) (nm : String)
    (content : Bytes) (pages : List Bytes)
    (hsplit : stringToBoolean
      (formGetString request.form PARTITION_FORM_SPLIT_PDF_PAGE_KEY) = true)
    (hfile : fileOfForm request.form = some (nm, content))
    (hpdf : strEndsWith nm ".pdf" = true)
    (hload : lib.load content = .ok pages) :
    (buildPageRequests request (replaceFirst nm ".pdf" "") pages).length
        = pages.length
    ∧ (∀ (j : Nat) (pg : Bytes), pages[j]? = some pg →
        (buildPageRequests request (replaceFirst nm ".pdf" "") pages)[j]? = some
          { headers := request.headers.filter (fun p => p.1 ≠ "content-type"),
            form :=
              ((request.form.filter
                    (fun p => p.1 ≠ PARTITION_FORM_SPLIT_PDF_PAGE_KEY)).filter
                  (fun p => p.1 ≠ PARTITION_FORM_FILES_KEY))
                ++ [(PARTITION_FORM_SPLIT_PDF_PAGE_KEY, FormValue.str "false"),
                    (PARTITION_FORM_FILES_KEY,
                      FormValue.file
                        (replaceFirst nm ".pdf" "" ++ "-" ++ toString (j + 1)
                          ++ ".pdf") pg)] })
    ∧ (beforeRequest lib (some client) cfg st op request).result
        = .ok (buildPageRequests request (replaceFirst nm ".pdf" "") pages).getLast? := by
  refine ⟨buildPageRequests_length request (replaceFirst nm ".pdf" "") pages,
    ?_, ?_⟩
  · intro j pg hj
    rw [buildPageRequests_get request (replaceFirst nm ".pdf" "") pages j pg hj]
    simp [pageRequest, prepareRequestHeaders, prepareRequestBody,
      FormData.append, FormData.del, HHeaders.del]
  · rw [beforeRequest_split_eq lib client cfg st op request nm content pages
      hsplit hfile hpdf hload]

/-- C6 witness: a 2-page split of "doc.pdf" produces "doc-1.pdf" /
"doc-2.pdf" requests and returns the last one. -/
theorem c6_page_requests_witness :
    (buildPageRequests pdfSplitRequest (replaceFirst "doc.pdf" ".pdf" "")
        [[10], [20]])[0]? = some
      { headers := pdfSplitRequest.headers.filter (fun p => p.1 ≠ "content-type"),
        form :=
          ((pdfSplitRequest.form.filter
                (fun p => p.1 ≠ PARTITION_FORM_SPLIT_PDF_PAGE_KEY)).filter
              (fun p => p.1 ≠ PARTITION_FORM_FILES_KEY))
            ++ [(PARTITION_FORM_SPLIT_PDF_PAGE_KEY, FormValue.str "false"),
                (PARTITION_FORM_FILES_KEY,
                  FormValue.file
                    (replaceFirst "doc.pdf" ".pdf" "" ++ "-" ++ toString (0 + 1)
                      ++ ".pdf") [10])] }
    ∧ (beforeRequest twoPageLib (some okClient) 5 emptyState "op"
        pdfSplitRequest).result
      = .ok (buildPageRequests pdfSplitRequest (replaceFirst "doc.pdf" ".pdf" "")
          [[10], [20]]).getLast? :=
  ⟨(c6_page_requests twoPageLib okClient 5 emptyState "op" pdfSplitRequest
      "doc.pdf" [1, 2, 3] [[10], [20]] (by decide) rfl (by decide) rfl).2.1
    0 [10] rfl,
   (c6_page_requests twoPageLib okClient 5 emptyState "op" pdfSplitRequest
      "doc.pdf" [1, 2, 3] [[10], [20]] (by decide) rfl (by decide) rfl).2.2⟩
